import Mathlib

/-!
# Verification of the dexcon-monitoring-bot conversational capture engine

Shallow embedding of `src/insulin_bot.py`: a Telegram bot that runs a
two-state structured capture flow (`ASKING_FOOD`, `ASKING_INSULIN`)
collecting a carbohydrate estimate and an insulin dose into an in-memory
record list, and otherwise answers free-form questions with a bounded
rolling chat history.

External collaborators (the OpenAI service, the speech transcription
pipeline, the wall clock, the Telegram chat id) are modelled as inputs
supplied per step in an `Env` value; the bot's own logic is translated
function-by-function from the source.
-/

namespace InsulinBot

/-- The two conversation states of the `ConversationHandler`
(`ASKING_FOOD, ASKING_INSULIN = range(2)` in the source).  `Option ConvState`
models the conversation key: `none` is "no active conversation"
(before `/trigger_alert`, or after `ConversationHandler.END`). -/
inductive ConvState
  | asking_food
  | asking_insulin
deriving DecidableEq

/-- One entry of the free-form chat history: a `{"role": ..., "content": ...}`
dict as built by `handle_deep_dive`. -/
structure ChatTurn where
  role : String
  content : String
deriving DecidableEq

/-- A non-null JSON scalar as `json.loads` decodes it to a Python value:
an integer, a non-integral number (Python `float`, carried here as a
rational), a string, or a boolean.  JSON `null` decodes to Python `None`
and is folded into the `Option` of `JsonDict` below, since `dict.get`
makes it indistinguishable from a missing key.  Arrays and objects are
omitted only because the program never inspects a value's shape — every
non-`None` value flows through the same `is not None` test and `str(...)`
formatting, so they would behave exactly like the scalars kept here. -/
inductive JsonValue
  | int (n : Int)
  | num (q : ℚ)
  | str (s : String)
  | bool (b : Bool)
deriving DecidableEq

/-- A field of a stored record.  `received_insulin` builds the record with
`context.user_data.get('carbs', 'N/A')`, so a field is either whatever
value the extraction call produced — the code performs no type check on
it — or the `'N/A'` placeholder string. -/
inductive FieldVal
  | val (v : JsonValue)
  | na
deriving DecidableEq

/-- Python `str(...)` of a decoded JSON value, as interpolated into the
bot's f-strings.  (For non-integral numbers the rational's rendering
stands in for Python float formatting; no theorem depends on it.) -/
def jsonValueToString : JsonValue → String
  | .int n => toString n
  | .num q => toString q
  | .str s => s
  | .bool b => if b then "True" else "False"

/-- One element of the global `event_records` list:
`{"timestamp": ..., "carbs": ..., "insulin": ...}`. -/
structure EventRecord where
  timestamp : String
  carbs : FieldVal
  insulin : FieldVal
deriving DecidableEq

/-- `context.user_data` restricted to the keys the source ever writes:
`'carbs'`, `'insulin'`, `'chat_history'`.  `none` models an absent key.
The captured fields hold whatever value the extraction call returned —
the source stores them with no type check beyond `is not None`. -/
structure UserData where
  carbs : Option JsonValue
  insulin : Option JsonValue
  chat_history : Option (List ChatTurn)
deriving DecidableEq

/-- The whole mutable state of the bot process: the conversation state for
the (single) user, `context.user_data`, the global `event_records` list and
the global `user_chat_id`. -/
structure BotState where
  conv : Option ConvState
  user_data : UserData
  event_records : List EventRecord
  user_chat_id : Option Int
deriving DecidableEq

/-- State at process start: no conversation, empty `user_data`, empty
`event_records`, `user_chat_id = None`. -/
def initialState : BotState :=
  { conv := none,
    user_data := { carbs := none, insulin := none, chat_history := none },
    event_records := [],
    user_chat_id := none }

/-- The parsed JSON object returned by the extraction service, restricted to
the two keys the source reads with `.get`: `"carbs"` and `"insulin_units"`.
Each projection is the Python result of `data.get(key)`: `none` models a
missing key or an explicit JSON `null` (both make `dict.get` return
`None`); `some v` is any non-null JSON value — the untrusted oracle is
free to answer with a string, float or boolean as well as an integer. -/
structure JsonDict where
  carbs : Option JsonValue
  insulin_units : Option JsonValue
deriving DecidableEq

/-- Per-step inputs from the external collaborators: the timestamp
(`datetime.now().strftime(...)`), the Telegram chat id, the transcription
result for a voice message (`None` on transcription failure), and the two
OpenAI call outcomes.  `Except.error ()` models a raised exception: for the
JSON call this covers both a transport/service error and a
`json.loads` parse error (the source wraps both in one `try`/`except`);
for the chat call it covers any service error. -/
structure Env where
  ts : String
  chat_id : Int
  transcription : Option String
  jsonOracle : Except Unit JsonDict
  chatOracle : Except Unit String

/-- An inbound Telegram update, as the handler filters distinguish them:
a non-command text message (`filters.TEXT & ~filters.COMMAND`), a voice
message (`filters.VOICE`), or a `/command`. -/
inductive TgUpdate
  | text (s : String)
  | voice
  | command (name : String)
deriving DecidableEq

/-- `get_openai_json_response`: returns the parsed JSON object, or the empty
dict `{}` when the call or the parse raised (`except Exception: return {}`).
In the embedding the empty dict is the record whose `.get` projections are
both `none`.  The function is total: no error ever propagates to the caller. -/
def get_openai_json_response (outcome : Except Unit JsonDict) : JsonDict :=
  match outcome with
  | .ok d => d
  | .error _ => { carbs := none, insulin_units := none }

/-- The fixed apology returned by `get_openai_chat_response` on a service
error. -/
def chatErrorApology : String :=
  "Sorry, I encountered an error and can't respond right now."

/-- `get_openai_chat_response`: the model's reply on success, the fixed
apology string when the call raised. -/
def get_openai_chat_response (outcome : Except Unit String) : String :=
  match outcome with
  | .ok s => s
  | .error _ => chatErrorApology

/-- `_get_text_from_message`: the text of a text message, the transcription
result (possibly `None`) of a voice message, `None` otherwise. -/
def get_text_from_message (env : Env) (u : TgUpdate) : Option String :=
  match u with
  | .text s => some s
  | .voice => env.transcription
  | .command _ => none

/-- `trigger_alert`: stores the chat id in the global `user_chat_id`, sends
the first prompt, and returns `ASKING_FOOD`. -/
def trigger_alert (env : Env) (st : BotState) : BotState × List String :=
  ({ st with user_chat_id := some env.chat_id, conv := some ConvState.asking_food },
   ["Hi, I've noticed a recent event. What did you eat for your last meal?"])

/-- `received_food`: acknowledges, resolves the utterance text, calls the
extraction service for `"carbs"`; on a usable value stores it in
`user_data['carbs']` and returns `ASKING_INSULIN`, otherwise re-prompts and
returns `ASKING_FOOD`.  `input` is the result of `_get_text_from_message`. -/
def received_food (env : Env) (input : Option String) (st : BotState) :
    BotState × List String :=
  match input with
  | none =>
      ({ st with conv := some ConvState.asking_food },
       ["Thanks! Analyzing...",
        "I couldn't understand that. Please try typing it."])
  | some _user_input =>
      let data := get_openai_json_response env.jsonOracle
      match data.carbs with
      | some c =>
          ({ st with
              user_data := { st.user_data with carbs := some c },
              conv := some ConvState.asking_insulin },
           ["Thanks! Analyzing...",
            "Got it, I estimate that was about " ++ jsonValueToString c ++
              "g of carbs.\n\nNow, how many units of insulin did you inject?"])
      | none =>
          ({ st with conv := some ConvState.asking_food },
           ["Thanks! Analyzing...",
            "I had trouble estimating. Could you try describing it again?"])

/-- `received_insulin`: acknowledges, resolves the utterance text, calls the
extraction service for `"insulin_units"`; on a usable value stores it in
`user_data['insulin']`, appends a record built from
`user_data.get('carbs','N/A')` / `user_data.get('insulin','N/A')`, clears
`user_data` entirely (`context.user_data.clear()`) and ends the
conversation; otherwise re-prompts and returns `ASKING_INSULIN`. -/
def received_insulin (env : Env) (input : Option String) (st : BotState) :
    BotState × List String :=
  match input with
  | none =>
      ({ st with conv := some ConvState.asking_insulin },
       ["Checking the value...",
        "I didn't catch that. Please type the number of units."])
  | some _user_input =>
      let data := get_openai_json_response env.jsonOracle
      match data.insulin_units with
      | some i =>
          let ud : UserData := { st.user_data with insulin := some i }
          let newRecord : EventRecord :=
            { timestamp := env.ts,
              carbs := (match ud.carbs with
                        | some c => FieldVal.val c
                        | none => FieldVal.na),
              insulin := (match ud.insulin with
                          | some v => FieldVal.val v
                          | none => FieldVal.na) }
          ({ st with
              user_data := { carbs := none, insulin := none, chat_history := none },
              event_records := st.event_records ++ [newRecord],
              conv := none },
           ["Checking the value...", "Thank you! Information recorded."])
      | none =>
          ({ st with conv := some ConvState.asking_insulin },
           ["Checking the value...",
            "That doesn't seem like a valid amount. Please provide a simple number."])

/-- `cancel`: replies, deletes `user_data['chat_history']` when present
(setting the key to absent covers the `if 'chat_history' in ...: del`
guard), and ends the conversation.  It does not touch `'carbs'`,
`'insulin'` or `event_records`. -/
def cancel (_env : Env) (st : BotState) : BotState × List String :=
  ({ st with
      user_data := { st.user_data with chat_history := none },
      conv := none },
   ["Operation cancelled."])

/-- Python `list[-10:]`: the last `n` elements of a list (the whole list when
it is shorter than `n`). -/
def lastN (n : Nat) (l : List α) : List α :=
  l.drop (l.length - n)

/-- Python `str(...)` of a record field: the stored value's rendering, or
the `'N/A'` placeholder. -/
def fieldValToString : FieldVal → String
  | .val v => jsonValueToString v
  | .na => "N/A"

/-- One line of the deep-dive log summary:
`f"- Record {i+1} ({record['timestamp']}): Carbs={record['carbs']}g, Insulin={record['insulin']} units\n"`. -/
def summaryLine (i : Nat) (r : EventRecord) : String :=
  "- Record " ++ toString (i + 1) ++ " (" ++ r.timestamp ++ "): Carbs=" ++
    fieldValToString r.carbs ++ "g, Insulin=" ++ fieldValToString r.insulin ++ " units\n"

/-- The `log_summary` string built by `handle_deep_dive` from `event_records`. -/
def log_summary (records : List EventRecord) : String :=
  if records.isEmpty then "No records on file."
  else
    "Here are the user's past records:\n" ++
      String.join (records.enum.map (fun p => summaryLine p.1 p.2))

/-- The fixed system instruction of `handle_deep_dive`. -/
def system_prompt : String :=
  "You are a helpful diabetes assistant. Your role is to answer the user's questions based on their provided logs and conversation history. " ++
  "IMPORTANT: You are an AI assistant, NOT a medical professional. Always include a disclaimer that your advice is not a substitute for consultation with a doctor or endocrinologist. " ++
  "Analyze the provided records and chat history to give the most relevant, helpful, and safe response."

/-- `handle_deep_dive`: initialises `chat_history` when absent, builds the
prompt (system instruction, record summary, history, new user turn), asks
the chat service, replies with its answer, appends the user turn and the
assistant turn to the history and truncates it to the last 10 entries
(`chat_history[-10:]`). -/
def handle_deep_dive (env : Env) (user_message : String) (st : BotState) :
    BotState × List String :=
  let hist := st.user_data.chat_history.getD []
  let _messages : List ChatTurn :=
    ({ role := "system", content := system_prompt } ::
      { role := "system", content := "BACKGROUND INFO:\n" ++ log_summary st.event_records } ::
      hist) ++ [{ role := "user", content := user_message }]
  let ai_response := get_openai_chat_response env.chatOracle
  let newHist :=
    lastN 10 (hist ++
      [{ role := "user", content := user_message },
       { role := "assistant", content := ai_response }])
  ({ st with user_data := { st.user_data with chat_history := some newHist } },
   ["Thinking...", ai_response])

/-- `start`: stores the chat id and sends the greeting. -/
def start (env : Env) (st : BotState) : BotState × List String :=
  ({ st with user_chat_id := some env.chat_id },
   ["Hi! I'm your insulin monitoring assistant. 👋\n\n" ++
    "I can record events (use /trigger_alert to simulate) or you can ask me questions about your history.\n\n" ++
    "Use /show_records to see all data, and /clear_chat to reset our current conversation."])

/-- One block of the `/show_records` listing. -/
def showRecordsLine (i : Nat) (r : EventRecord) : String :=
  "📝 **Record #" ++ toString (i + 1) ++ "**\n - Timestamp: " ++ r.timestamp ++
    "\n - Estimated Carbs: " ++ fieldValToString r.carbs ++ " g\n - Insulin: " ++
    fieldValToString r.insulin ++ " units\n\n"

/-- `show_records`: renders the record store; mutates nothing. -/
def show_records (_env : Env) (st : BotState) : BotState × List String :=
  if st.event_records.isEmpty then (st, ["There are no records yet."])
  else
    (st,
     ["--- Stored Records ---\n\n" ++
        String.join (st.event_records.enum.map (fun p => showRecordsLine p.1 p.2))])

/-- `clear_chat`: deletes `user_data['chat_history']` when present and tells
the user; touches nothing else. -/
def clear_chat (_env : Env) (st : BotState) : BotState × List String :=
  match st.user_data.chat_history with
  | some _ =>
      ({ st with user_data := { st.user_data with chat_history := none } },
       ["Our current conversation history has been cleared."])
  | none => (st, ["There's no conversation history to clear."])

/-!
## The message router

`main` registers, in this order: `CommandHandler("start")`,
`CommandHandler("show_records")`, `CommandHandler("clear_chat")`, the
`ConversationHandler` (`record_handler`) and the deep-dive `MessageHandler`.
All are in the default group, so the first handler whose check matches the
update handles it and the rest are skipped.
-/

/-- The five registered handlers, as registration slots. -/
inductive Handler
  | cmdStart
  | cmdShowRecords
  | cmdClearChat
  | recordHandler
  | deepDiveHandler
deriving DecidableEq

/-- `ConversationHandler.check_update`: with no active conversation only the
entry point `/trigger_alert` matches; with an active conversation the state's
`MessageHandler` (`filters.TEXT & ~filters.COMMAND | filters.VOICE`) matches
text and voice, and the fallback `/cancel` matches among commands. -/
def conversationMatches (conv : Option ConvState) (u : TgUpdate) : Bool :=
  match conv, u with
  | none, .command n => n = "trigger_alert"
  | none, _ => false
  | some _, .text _ => true
  | some _, .voice => true
  | some _, .command n => n = "cancel"

/-- Whether one registered handler claims the update. -/
def handlerMatches (conv : Option ConvState) (h : Handler) (u : TgUpdate) : Bool :=
  match h, u with
  | .cmdStart, .command n => n = "start"
  | .cmdShowRecords, .command n => n = "show_records"
  | .cmdClearChat, .command n => n = "clear_chat"
  | .recordHandler, _ => conversationMatches conv u
  | .deepDiveHandler, .text _ => true
  | _, _ => false

/-- The handlers in the order `main` registers them; the structured
`record_handler` stands before the general text handler. -/
def handlers : List Handler :=
  [.cmdStart, .cmdShowRecords, .cmdClearChat, .recordHandler, .deepDiveHandler]

/-- The handler that receives the update: the first registered handler whose
check matches. -/
def dispatch (conv : Option ConvState) (u : TgUpdate) : Option Handler :=
  handlers.find? (fun h => handlerMatches conv h u)

/-- What the `ConversationHandler` does with an update it claimed: run the
entry point, the active state's message handler, or the `/cancel` fallback;
the handler's return value (`ASKING_FOOD`, `ASKING_INSULIN`,
`ConversationHandler.END`) is the new conversation state. -/
def conversation_update (env : Env) (u : TgUpdate) (st : BotState) :
    BotState × List String :=
  match st.conv with
  | none =>
      match u with
      | .command n => if n = "trigger_alert" then trigger_alert env st else (st, [])
      | _ => (st, [])
  | some s =>
      match u with
      | .command n => if n = "cancel" then cancel env st else (st, [])
      | _ =>
          match s with
          | .asking_food => received_food env (get_text_from_message env u) st
          | .asking_insulin => received_insulin env (get_text_from_message env u) st

/-- One dispatch round of the application: route the update to the first
matching handler and run it.  An update no handler claims changes nothing. -/
def step (env : Env) (u : TgUpdate) (st : BotState) : BotState × List String :=
  match dispatch st.conv u with
  | some .cmdStart => start env st
  | some .cmdShowRecords => show_records env st
  | some .cmdClearChat => clear_chat env st
  | some .recordHandler => conversation_update env u st
  | some .deepDiveHandler =>
      match u with
      | .text m => handle_deep_dive env m st
      | _ => (st, [])
  | none => (st, [])

/-- Run a whole inbound trace, each update with its collaborator inputs. -/
def runEvents (evs : List (Env × TgUpdate)) (st : BotState) : BotState :=
  evs.foldl (fun s e => (step e.1 e.2 s).1) st

/-- Iterate `handle_deep_dive` alone: one `(env, user_message)` per call. -/
def runDeepDives (evs : List (Env × String)) (st : BotState) : BotState :=
  evs.foldl (fun s e => (handle_deep_dive e.1 e.2 s).1) st

/-- The user/assistant turn pairs a sequence of deep-dive calls appends,
in order, before any truncation. -/
def turnsOf (evs : List (Env × String)) : List ChatTurn :=
  (evs.map (fun e =>
    [ChatTurn.mk "user" e.2,
     ChatTurn.mk "assistant" (get_openai_chat_response e.1.chatOracle)])).flatten

/-!
## Process startup

Module load builds the OpenAI client inside `try`/`except openai.OpenAIError`
(raised when `OPENAI_API_KEY` is absent from the environment) and calls
`exit()` on failure; Python's `exit()` raises `SystemExit(None)`, which ends
the process with status 0.  `main` reads `TELEGRAM_BOT_TOKEN` and plainly
`return`s when it is falsy (absent or empty), after which the script ends —
again with status 0.  Only when both are present does `run_polling` start.
-/

/-- The process environment variables the program reads at startup. -/
structure ProcEnv where
  openai_api_key : Option String
  telegram_bot_token : Option String
deriving DecidableEq

/-- How startup ends: terminated with an exit status and a logged
diagnostic, or message handling running (`application.run_polling()`). -/
inductive StartupOutcome
  | exited (exitCode : Nat) (diagnostic : String)
  | polling (token : String)
deriving DecidableEq

/-- The startup path of the script: client construction at module load,
then `main`'s token check, then `run_polling`. -/
def program_startup (env : ProcEnv) : StartupOutcome :=
  match env.openai_api_key with
  | none =>
      .exited 0 "FATAL: OPENAI_API_KEY environment variable not set."
  | some _ =>
      match env.telegram_bot_token with
      | none => .exited 0 "FATAL: TELEGRAM_BOT_TOKEN environment variable not set."
      | some t =>
          if t = "" then .exited 0 "FATAL: TELEGRAM_BOT_TOKEN environment variable not set."
          else .polling t

/-!
## Derived notions and test fixtures
-/

/-- Whether a record field holds a captured value (rather than the `'N/A'`
placeholder written for an absent buffer entry). -/
def isPresent : FieldVal → Bool
  | .val _ => true
  | .na => false

/-- Whether a record field holds specifically an integer.  The program
performs no such check — this predicate exists to state that fact. -/
def isIntField : FieldVal → Bool
  | .val (.int _) => true
  | .val _ => false
  | .na => false

/-- The JSON key the state machine reads in each structured state. -/
def missingField : ConvState → JsonDict → Option JsonValue
  | ConvState.asking_food, d => d.carbs
  | ConvState.asking_insulin, d => d.insulin_units

/-- The acknowledgement each structured state sends before analysing. -/
def ackMessage : ConvState → String
  | ConvState.asking_food => "Thanks! Analyzing..."
  | ConvState.asking_insulin => "Checking the value..."

/-- The re-prompt each structured state sends when extraction yields no
usable value. -/
def retryMessage : ConvState → String
  | ConvState.asking_food => "I had trouble estimating. Could you try describing it again?"
  | ConvState.asking_insulin => "That doesn't seem like a valid amount. Please provide a simple number."

/-- `true` exactly on the `polling` outcome (message handling running). -/
def isPolling : StartupOutcome → Bool
  | .polling _ => true
  | .exited _ _ => false

/-- The exit status of a terminated startup, `none` when polling started. -/
def exitCodeOf : StartupOutcome → Option Nat
  | .exited c _ => some c
  | .polling _ => none

/-- The logged diagnostic of a terminated startup. -/
def diagnosticOf : StartupOutcome → Option String
  | .exited _ d => some d
  | .polling _ => none

/-- The reachability invariant: entering `ASKING_INSULIN` requires a stored
carbs value, every stored record carries a captured value (never `'N/A'`)
in both fields, and the chat history never exceeds 10 entries. -/
def StateInv (st : BotState) : Prop :=
  (st.conv = some ConvState.asking_insulin → st.user_data.carbs.isSome = true) ∧
  (∀ r ∈ st.event_records, isPresent r.carbs = true ∧ isPresent r.insulin = true) ∧
  (st.user_data.chat_history.getD []).length ≤ 10

/-- An environment whose two service calls both raise. -/
def failEnv : Env :=
  { ts := "2024-01-01 12:00:00", chat_id := 1, transcription := none,
    jsonOracle := Except.error (), chatOracle := Except.error () }

/-- An environment whose extraction call succeeds with the given object. -/
def extractEnv (d : JsonDict) : Env :=
  { ts := "2024-01-01 12:00:00", chat_id := 1, transcription := none,
    jsonOracle := Except.ok d, chatOracle := Except.ok "ok" }

/-- An environment whose chat call succeeds with the given reply. -/
def okEnv (reply : String) : Env :=
  { ts := "2024-01-01 12:00:00", chat_id := 1, transcription := none,
    jsonOracle := Except.ok { carbs := none, insulin_units := none },
    chatOracle := Except.ok reply }

/-- A session waiting for the food description. -/
def askingFoodState : BotState :=
  { initialState with conv := some ConvState.asking_food }

/-- A session waiting for the insulin dose, with a provisional carbs value
in the partial buffer. -/
def askingInsulinState : BotState :=
  { conv := some ConvState.asking_insulin,
    user_data := { carbs := some (JsonValue.int 30), insulin := none, chat_history := none },
    event_records := [],
    user_chat_id := some 1 }

/-- A full trace: trigger, a food answer the oracle extracts as the JSON
string `"thirty"` (not an integer — the code stores it unexamined), then an
insulin answer it reports as 150 units — outside the 0-100 schema range. -/
def c2_trace : List (Env × TgUpdate) :=
  [(extractEnv { carbs := none, insulin_units := none }, TgUpdate.command "trigger_alert"),
   (extractEnv { carbs := some (JsonValue.str "thirty"), insulin_units := none },
    TgUpdate.text "a slice of pizza"),
   (extractEnv { carbs := none, insulin_units := some (JsonValue.int 150) },
    TgUpdate.text "150 units")]

/-- The record the `c2_trace` run appends: a string where an integer is
required, and an out-of-range dose. -/
def c2_record : EventRecord :=
  { timestamp := "2024-01-01 12:00:00",
    carbs := FieldVal.val (JsonValue.str "thirty"),
    insulin := FieldVal.val (JsonValue.int 150) }

/-- Six free-form exchanges: 12 appended turns, two over the cap. -/
def c5_calls : List (Env × String) :=
  [(okEnv "r1", "m1"), (okEnv "r2", "m2"), (okEnv "r3", "m3"),
   (okEnv "r4", "m4"), (okEnv "r5", "m5"), (okEnv "r6", "m6")]

/-!
## Helper lemmas
-/

theorem length_lastN_le (n : Nat) (l : List α) : (lastN n l).length ≤ n := by
  simp only [lastN, List.length_drop]
  omega

theorem lastN_of_length_le {n : Nat} {l : List α} (h : l.length ≤ n) :
    lastN n l = l := by
  simp [lastN, Nat.sub_eq_zero_of_le h]

theorem lastN_append_lastN (n : Nat) (xs ys : List α) :
    lastN n (lastN n xs ++ ys) = lastN n (xs ++ ys) := by
  unfold lastN
  rw [← List.drop_append_of_le_length (by omega), List.drop_drop]
  simp only [List.length_drop, List.length_append]
  congr 1
  omega

theorem turnsOf_cons (e : Env × String) (es : List (Env × String)) :
    turnsOf (e :: es) =
      [ChatTurn.mk "user" e.2,
       ChatTurn.mk "assistant" (get_openai_chat_response e.1.chatOracle)] ++ turnsOf es := by
  simp [turnsOf]

theorem handle_deep_dive_hist (env : Env) (m : String) (st : BotState) :
    (handle_deep_dive env m st).1.user_data.chat_history =
      some (lastN 10 (st.user_data.chat_history.getD [] ++
        [ChatTurn.mk "user" m,
         ChatTurn.mk "assistant" (get_openai_chat_response env.chatOracle)])) := rfl

theorem runDeepDives_hist (evs : List (Env × String)) (st : BotState)
    (h : (st.user_data.chat_history.getD []).length ≤ 10) :
    (runDeepDives evs st).user_data.chat_history.getD [] =
      lastN 10 (st.user_data.chat_history.getD [] ++ turnsOf evs) := by
  induction evs generalizing st with
  | nil =>
      simp only [runDeepDives, List.foldl_nil, turnsOf, List.map_nil,
        List.flatten_nil, List.append_nil]
      exact (lastN_of_length_le h).symm
  | cons e es ih =>
      have hstep : ((handle_deep_dive e.1 e.2 st).1.user_data.chat_history.getD []) =
          lastN 10 (st.user_data.chat_history.getD [] ++
            [ChatTurn.mk "user" e.2,
             ChatTurn.mk "assistant" (get_openai_chat_response e.1.chatOracle)]) := by
        rw [handle_deep_dive_hist]
        rfl
      have hrun : runDeepDives (e :: es) st = runDeepDives es (handle_deep_dive e.1 e.2 st).1 := by
        simp [runDeepDives]
      rw [hrun, ih _ (by rw [hstep]; exact length_lastN_le 10 _), hstep,
        lastN_append_lastN, turnsOf_cons, List.append_assoc]

theorem step_text_none (env : Env) (m : String) (ud : UserData)
    (recs : List EventRecord) (uc : Option Int) :
    step env (TgUpdate.text m) ⟨none, ud, recs, uc⟩ =
      handle_deep_dive env m ⟨none, ud, recs, uc⟩ := rfl

theorem step_text_some (env : Env) (m : String) (s : ConvState) (ud : UserData)
    (recs : List EventRecord) (uc : Option Int) :
    step env (TgUpdate.text m) ⟨some s, ud, recs, uc⟩ =
      (match s with
       | ConvState.asking_food => received_food env (some m) ⟨some s, ud, recs, uc⟩
       | ConvState.asking_insulin => received_insulin env (some m) ⟨some s, ud, recs, uc⟩) := by
  cases s <;> rfl

theorem step_voice_none (env : Env) (ud : UserData)
    (recs : List EventRecord) (uc : Option Int) :
    step env TgUpdate.voice ⟨none, ud, recs, uc⟩ = (⟨none, ud, recs, uc⟩, []) := rfl

theorem step_voice_some (env : Env) (s : ConvState) (ud : UserData)
    (recs : List EventRecord) (uc : Option Int) :
    step env TgUpdate.voice ⟨some s, ud, recs, uc⟩ =
      (match s with
       | ConvState.asking_food => received_food env env.transcription ⟨some s, ud, recs, uc⟩
       | ConvState.asking_insulin => received_insulin env env.transcription ⟨some s, ud, recs, uc⟩) := by
  cases s <;> rfl

theorem step_command (env : Env) (n : String) (st : BotState) :
    step env (TgUpdate.command n) st =
      if n = "start" then start env st
      else if n = "show_records" then show_records env st
      else if n = "clear_chat" then clear_chat env st
      else
        match st.conv with
        | none => if n = "trigger_alert" then trigger_alert env st else (st, [])
        | some _ => if n = "cancel" then cancel env st else (st, []) := by
  obtain ⟨cv, ud, recs, uc⟩ := st
  by_cases h1 : n = "start"
  · subst h1
    cases cv <;>
      simp [step, dispatch, handlers, handlerMatches, conversationMatches]
  by_cases h2 : n = "show_records"
  · subst h2
    cases cv <;>
      simp [step, dispatch, handlers, handlerMatches, conversationMatches]
  by_cases h3 : n = "clear_chat"
  · subst h3
    cases cv <;>
      simp [step, dispatch, handlers, handlerMatches, conversationMatches]
  cases cv with
  | none =>
      by_cases h4 : n = "trigger_alert"
      · subst h4
        simp [step, dispatch, handlers, handlerMatches, conversationMatches,
          conversation_update, h1, h2, h3]
      · simp [step, dispatch, handlers, handlerMatches, conversationMatches,
          conversation_update, h1, h2, h3, h4]
  | some s =>
      by_cases h4 : n = "cancel"
      · subst h4
        simp [step, dispatch, handlers, handlerMatches, conversationMatches,
          conversation_update, h1, h2, h3]
      · simp [step, dispatch, handlers, handlerMatches, conversationMatches,
          conversation_update, h1, h2, h3, h4]

theorem show_records_state (env : Env) (st : BotState) :
    (show_records env st).1 = st := by
  unfold show_records
  split <;> rfl

theorem inv_start (env : Env) (st : BotState) (h : StateInv st) :
    StateInv (start env st).1 := h

theorem inv_trigger_alert (env : Env) (st : BotState) (h : StateInv st) :
    StateInv (trigger_alert env st).1 :=
  ⟨by simp [trigger_alert], h.2.1, h.2.2⟩

theorem inv_clear_chat (env : Env) (st : BotState) (h : StateInv st) :
    StateInv (clear_chat env st).1 := by
  unfold clear_chat
  cases st.user_data.chat_history with
  | none => exact h
  | some l => exact ⟨h.1, h.2.1, by simp⟩

theorem inv_cancel (env : Env) (st : BotState) (h : StateInv st) :
    StateInv (cancel env st).1 :=
  ⟨by simp [cancel], h.2.1, by simp [cancel]⟩

theorem inv_handle_deep_dive (env : Env) (m : String) (st : BotState)
    (h : StateInv st) : StateInv (handle_deep_dive env m st).1 := by
  refine ⟨h.1, h.2.1, ?_⟩
  rw [handle_deep_dive_hist]
  exact le_trans (le_of_eq rfl) (length_lastN_le 10 _)

theorem inv_received_food (env : Env) (i : Option String) (st : BotState)
    (h : StateInv st) : StateInv (received_food env i st).1 := by
  unfold received_food
  split
  · exact ⟨by simp, h.2.1, h.2.2⟩
  · dsimp only
    split
    · exact ⟨by simp, h.2.1, h.2.2⟩
    · exact ⟨by simp, h.2.1, h.2.2⟩

theorem inv_received_insulin (env : Env) (i : Option String) (st : BotState)
    (h : StateInv st) (hc : st.conv = some ConvState.asking_insulin) :
    StateInv (received_insulin env i st).1 := by
  unfold received_insulin
  split
  · exact ⟨fun _ => h.1 hc, h.2.1, h.2.2⟩
  · dsimp only
    split
    · refine ⟨by simp, ?_, by simp⟩
      intro r hr
      simp only [List.mem_append, List.mem_singleton] at hr
      rcases hr with hr | hr
      · exact h.2.1 r hr
      · subst hr
        have hcarb := h.1 hc
        cases hcb : st.user_data.carbs with
        | none => rw [hcb] at hcarb; simp at hcarb
        | some c => simp [hcb, isPresent]
    · exact ⟨fun _ => h.1 hc, h.2.1, h.2.2⟩

theorem step_preserves_inv (env : Env) (u : TgUpdate) (st : BotState)
    (h : StateInv st) : StateInv (step env u st).1 := by
  obtain ⟨cv, ud, recs, uc⟩ := st
  cases u with
  | text m =>
      cases cv with
      | none => rw [step_text_none]; exact inv_handle_deep_dive env m _ h
      | some s =>
          rw [step_text_some]
          cases s with
          | asking_food => exact inv_received_food env (some m) _ h
          | asking_insulin => exact inv_received_insulin env (some m) _ h rfl
  | voice =>
      cases cv with
      | none => rw [step_voice_none]; exact h
      | some s =>
          rw [step_voice_some]
          cases s with
          | asking_food => exact inv_received_food env env.transcription _ h
          | asking_insulin => exact inv_received_insulin env env.transcription _ h rfl
  | command n =>
      rw [step_command]
      by_cases h1 : n = "start"
      · simp only [h1, if_true]; exact inv_start env _ h
      rw [if_neg h1]
      by_cases h2 : n = "show_records"
      · simp only [h2, if_true]; rw [show_records_state]; exact h
      rw [if_neg h2]
      by_cases h3 : n = "clear_chat"
      · simp only [h3, if_true]; exact inv_clear_chat env _ h
      rw [if_neg h3]
      cases cv with
      | none =>
          by_cases h4 : n = "trigger_alert"
          · simp only [h4, if_true]; exact inv_trigger_alert env _ h
          · rw [if_neg h4]; exact h
      | some s =>
          by_cases h4 : n = "cancel"
          · simp only [h4, if_true]; exact inv_cancel env _ h
          · rw [if_neg h4]; exact h

theorem initialState_inv : StateInv initialState := by
  refine ⟨?_, ?_, ?_⟩ <;> simp [StateInv, initialState]

theorem runEvents_inv (evs : List (Env × TgUpdate)) (st : BotState)
    (h : StateInv st) : StateInv (runEvents evs st) := by
  induction evs generalizing st with
  | nil => exact h
  | cons e es ih =>
      have : runEvents (e :: es) st = runEvents es (step e.1 e.2 st).1 := by
        simp [runEvents]
      rw [this]
      exact ih _ (step_preserves_inv e.1 e.2 st h)

theorem received_food_error (env : Env) (m : String) (st : BotState)
    (hfail : env.jsonOracle = Except.error ()) :
    received_food env (some m) st =
      ({ st with conv := some ConvState.asking_food },
       ["Thanks! Analyzing...",
        "I had trouble estimating. Could you try describing it again?"]) := by
  unfold received_food
  rw [hfail]
  rfl

/-!
## The claims
-/

/-- C1: while a session is in `ASKING_FOOD` or `ASKING_INSULIN`, a
non-command text utterance is dispatched to the structured
`ConversationHandler` and handled by `received_food` / `received_insulin`;
the free-form `handle_deep_dive` is dispatched only when no structured
state is active. -/
theorem c1_router_priority (env : Env) (st : BotState) (m : String) :
    (∀ s : ConvState, st.conv = some s →
      dispatch st.conv (TgUpdate.text m) = some Handler.recordHandler ∧
      step env (TgUpdate.text m) st =
        (match s with
         | ConvState.asking_food => received_food env (some m) st
         | ConvState.asking_insulin => received_insulin env (some m) st)) ∧
    (st.conv = none →
      dispatch st.conv (TgUpdate.text m) = some Handler.deepDiveHandler ∧
      step env (TgUpdate.text m) st = handle_deep_dive env m st) := by
  obtain ⟨cv, ud, recs, uc⟩ := st
  constructor
  · intro s hs
    cases cv with
    | none => exact Option.noConfusion hs
    | some s2 =>
        have h2 : s2 = s := by injection hs
        subst h2
        exact ⟨rfl, step_text_some env m s2 ud recs uc⟩
  · intro hn
    cases cv with
    | none => exact ⟨rfl, step_text_none env m ud recs uc⟩
    | some s2 => exact Option.noConfusion hn

theorem c1_router_priority_witness :
    dispatch askingFoodState.conv (TgUpdate.text "hello") = some Handler.recordHandler ∧
    step failEnv (TgUpdate.text "hello") askingFoodState =
      received_food failEnv (some "hello") askingFoodState ∧
    dispatch initialState.conv (TgUpdate.text "hello") = some Handler.deepDiveHandler ∧
    step failEnv (TgUpdate.text "hello") initialState =
      handle_deep_dive failEnv "hello" initialState := by
  obtain ⟨h1, h2⟩ := c1_router_priority failEnv askingFoodState "hello"
  obtain ⟨ha, hb⟩ := h1 ConvState.asking_food rfl
  obtain ⟨h3, h4⟩ := c1_router_priority failEnv initialState "hello"
  obtain ⟨hc, hd⟩ := h4 rfl
  exact ⟨ha, hb, hc, hd⟩

/-- C2 (amended): every record appended over any trace from the initial
state holds a captured extraction value in both fields — neither is ever
null, absent, or the `'N/A'` placeholder.  Nothing more is guaranteed:
the code stores the untrusted value after only an `is not None` test, so
neither integer-ness nor the 0-100 insulin range is checked (see the
counterexample, where a string and an out-of-range dose are appended). -/
theorem c2_records_fields_present (evs : List (Env × TgUpdate)) :
    ∀ r ∈ (runEvents evs initialState).event_records,
      isPresent r.carbs = true ∧ isPresent r.insulin = true :=
  (runEvents_inv evs initialState initialState_inv).2.1

theorem c2_records_fields_present_witness :
    isPresent c2_record.carbs = true ∧ isPresent c2_record.insulin = true :=
  c2_records_fields_present c2_trace c2_record (by decide)

/-- C2 counterexample: a full reachable run in which the extraction service
answers the JSON string `"thirty"` for `"carbs"` and 150 for
`"insulin_units"`; both pass the only test the code makes (`is not None`),
so the appended record holds a non-integer carbs field and an insulin dose
outside 0-100 — refuting both the "non-null integer" and the "within its
declared schema range" parts of the claim. -/
theorem c2_unchecked_fields_counterexample :
    c2_record ∈ (runEvents c2_trace initialState).event_records ∧
    c2_record.carbs = FieldVal.val (JsonValue.str "thirty") ∧
    isIntField c2_record.carbs = false ∧
    c2_record.insulin = FieldVal.val (JsonValue.int 150) ∧
    ¬ ((0 : Int) ≤ 150 ∧ (150 : Int) ≤ 100) :=
  ⟨by decide, rfl, rfl, rfl, by decide⟩

/-- C3: in either structured state, when the extraction result carries no
usable value for the state's field, the state machine replies with the
state's fixed re-prompt and neither the state, the partial buffer
(`user_data`) nor the record store changes. -/
theorem c3_extraction_failure_no_advance (env : Env) (st : BotState)
    (s : ConvState) (m : String)
    (hconv : st.conv = some s)
    (hfail : missingField s (get_openai_json_response env.jsonOracle) = none) :
    (step env (TgUpdate.text m) st).1.conv = some s ∧
    (step env (TgUpdate.text m) st).1.user_data = st.user_data ∧
    (step env (TgUpdate.text m) st).1.event_records = st.event_records ∧
    (step env (TgUpdate.text m) st).2 = [ackMessage s, retryMessage s] := by
  obtain ⟨cv, ud, recs, uc⟩ := st
  dsimp only at hconv
  subst hconv
  rw [step_text_some]
  cases s with
  | asking_food =>
      simp only [missingField] at hfail
      simp [received_food, hfail, ackMessage, retryMessage]
  | asking_insulin =>
      simp only [missingField] at hfail
      simp [received_insulin, hfail, ackMessage, retryMessage]

theorem c3_extraction_failure_witness :
    (step failEnv (TgUpdate.text "pasta") askingFoodState).1.conv =
      some ConvState.asking_food ∧
    (step failEnv (TgUpdate.text "pasta") askingFoodState).1.user_data =
      askingFoodState.user_data ∧
    (step failEnv (TgUpdate.text "pasta") askingFoodState).1.event_records =
      askingFoodState.event_records ∧
    (step failEnv (TgUpdate.text "pasta") askingFoodState).2 =
      [ackMessage ConvState.asking_food, retryMessage ConvState.asking_food] :=
  c3_extraction_failure_no_advance failEnv askingFoodState ConvState.asking_food
    "pasta" rfl rfl

/-- C4 (amended): when the chat call fails, `handle_deep_dive` replies with
the fixed apology — but the context window is mutated all the same: the
failed user turn and the apology are both appended (and the window is then
truncated to the last 10 entries). -/
theorem c4_chat_failure_appends_to_history (env : Env) (st : BotState) (m : String)
    (hfail : env.chatOracle = Except.error ()) :
    (handle_deep_dive env m st).2 = ["Thinking...", chatErrorApology] ∧
    (handle_deep_dive env m st).1.user_data.chat_history =
      some (lastN 10 (st.user_data.chat_history.getD [] ++
        [ChatTurn.mk "user" m, ChatTurn.mk "assistant" chatErrorApology])) := by
  constructor
  · unfold handle_deep_dive
    rw [hfail]
    rfl
  · rw [handle_deep_dive_hist, hfail]
    rfl

theorem c4_chat_failure_appends_witness :
    (handle_deep_dive failEnv "x" initialState).2 = ["Thinking...", chatErrorApology] ∧
    (handle_deep_dive failEnv "x" initialState).1.user_data.chat_history =
      some (lastN 10 (initialState.user_data.chat_history.getD [] ++
        [ChatTurn.mk "user" "x", ChatTurn.mk "assistant" chatErrorApology])) :=
  c4_chat_failure_appends_to_history failEnv initialState "x" rfl

/-- C4 counterexample: a failed chat call from a fresh session leaves the
context window changed — it now holds the failed user turn and the apology,
where the claim requires it unchanged. -/
theorem c4_history_mutated_counterexample :
    (handle_deep_dive failEnv "hi" initialState).1.user_data.chat_history ≠
      initialState.user_data.chat_history ∧
    (handle_deep_dive failEnv "hi" initialState).1.user_data.chat_history =
      some [ChatTurn.mk "user" "hi", ChatTurn.mk "assistant" chatErrorApology] := by
  refine ⟨by decide, by decide⟩

/-- C5 (amended): the context window of any state reachable from startup
never exceeds 10 entries; and over any sequence of deep-dive calls the
window is exactly the last 10 of the initial window followed by the
appended turns, in original relative order (oldest evicted first) — the
`cap` most recent appended turns, not the `k` most recent. -/
theorem c5_window_cap_fifo (evs : List (Env × TgUpdate)) (dd : List (Env × String))
    (st : BotState)
    (h : (st.user_data.chat_history.getD []).length ≤ 10) :
    ((runEvents evs initialState).user_data.chat_history.getD []).length ≤ 10 ∧
    (runDeepDives dd st).user_data.chat_history.getD [] =
      lastN 10 (st.user_data.chat_history.getD [] ++ turnsOf dd) ∧
    ((runDeepDives dd st).user_data.chat_history.getD []).length ≤ 10 :=
  ⟨(runEvents_inv evs initialState initialState_inv).2.2,
   runDeepDives_hist dd st h,
   by rw [runDeepDives_hist dd st h]; exact length_lastN_le 10 _⟩

theorem c5_window_cap_fifo_witness :
    ((runEvents [] initialState).user_data.chat_history.getD []).length ≤ 10 ∧
    (runDeepDives c5_calls initialState).user_data.chat_history.getD [] =
      lastN 10 (initialState.user_data.chat_history.getD [] ++ turnsOf c5_calls) ∧
    ((runDeepDives c5_calls initialState).user_data.chat_history.getD []).length ≤ 10 :=
  c5_window_cap_fifo [] c5_calls initialState (by decide)

/-- C5 counterexample: after `cap + k` appended turns with `k = 2`
(six exchanges, 12 turns), the window retains the 10 most recent turns —
not "exactly the `k` most recent" as the claim states. -/
theorem c5_retention_counterexample :
    (turnsOf c5_calls).length = 12 ∧
    (runDeepDives c5_calls initialState).user_data.chat_history.getD [] =
      lastN 10 (turnsOf c5_calls) ∧
    ((runDeepDives c5_calls initialState).user_data.chat_history.getD []).length = 10 ∧
    ¬ ((runDeepDives c5_calls initialState).user_data.chat_history.getD [] =
        lastN 2 (turnsOf c5_calls)) := by
  refine ⟨by decide, by decide, by decide, by decide⟩

/-- C6 (amended): `/cancel` from any structured state ends the conversation
and appends no record — but it does not discard the partial-capture buffer:
`user_data['carbs']` and `user_data['insulin']` survive; what it deletes is
the free-form chat history. -/
theorem c6_cancel_ends_without_record (env : Env) (st : BotState) (s : ConvState)
    (h : st.conv = some s) :
    (step env (TgUpdate.command "cancel") st).1.conv = none ∧
    (step env (TgUpdate.command "cancel") st).1.event_records = st.event_records ∧
    (step env (TgUpdate.command "cancel") st).1.user_data.carbs = st.user_data.carbs ∧
    (step env (TgUpdate.command "cancel") st).1.user_data.insulin = st.user_data.insulin ∧
    (step env (TgUpdate.command "cancel") st).1.user_data.chat_history = none ∧
    (step env (TgUpdate.command "cancel") st).2 = ["Operation cancelled."] := by
  obtain ⟨cv, ud, recs, uc⟩ := st
  dsimp only at h
  subst h
  exact ⟨rfl, rfl, rfl, rfl, rfl, rfl⟩

theorem c6_cancel_ends_without_record_witness :
    (step failEnv (TgUpdate.command "cancel") askingInsulinState).1.conv = none ∧
    (step failEnv (TgUpdate.command "cancel") askingInsulinState).1.event_records =
      askingInsulinState.event_records ∧
    (step failEnv (TgUpdate.command "cancel") askingInsulinState).1.user_data.carbs =
      askingInsulinState.user_data.carbs ∧
    (step failEnv (TgUpdate.command "cancel") askingInsulinState).1.user_data.insulin =
      askingInsulinState.user_data.insulin ∧
    (step failEnv (TgUpdate.command "cancel") askingInsulinState).1.user_data.chat_history =
      none ∧
    (step failEnv (TgUpdate.command "cancel") askingInsulinState).2 =
      ["Operation cancelled."] :=
  c6_cancel_ends_without_record failEnv askingInsulinState ConvState.asking_insulin rfl

/-- C6 counterexample: cancelling while `ASKING_INSULIN` with a provisional
carbs value of 30 in the buffer — after `/cancel` the conversation is over,
yet `user_data['carbs']` still holds 30: the partial buffer was not
discarded. -/
theorem c6_buffer_not_discarded_counterexample :
    askingInsulinState.user_data.carbs = some (JsonValue.int 30) ∧
    (step failEnv (TgUpdate.command "cancel") askingInsulinState).1.conv = none ∧
    (step failEnv (TgUpdate.command "cancel") askingInsulinState).1.user_data.carbs =
      some (JsonValue.int 30) :=
  ⟨rfl, rfl, rfl⟩

/-- C7: the extraction adapter is total — on a raised service or parse
error it returns the empty mapping (both `.get` projections `none`), and
the caller in `ASKING_FOOD` re-prompts in the same state with `user_data`
untouched instead of crashing or retrying. -/
theorem c7_adapter_soft_failure (env : Env) (st : BotState) (m : String)
    (hfail : env.jsonOracle = Except.error ())
    (hconv : st.conv = some ConvState.asking_food) :
    get_openai_json_response env.jsonOracle = { carbs := none, insulin_units := none } ∧
    (step env (TgUpdate.text m) st).1.conv = some ConvState.asking_food ∧
    (step env (TgUpdate.text m) st).1.user_data = st.user_data ∧
    (step env (TgUpdate.text m) st).2 =
      ["Thanks! Analyzing...",
       "I had trouble estimating. Could you try describing it again?"] := by
  obtain ⟨cv, ud, recs, uc⟩ := st
  dsimp only at hconv
  subst hconv
  rw [step_text_some, received_food_error env m _ hfail]
  exact ⟨by rw [hfail]; rfl, rfl, rfl, rfl⟩

theorem c7_adapter_soft_failure_witness :
    get_openai_json_response failEnv.jsonOracle =
      { carbs := none, insulin_units := none } ∧
    (step failEnv (TgUpdate.text "soup") askingFoodState).1.conv =
      some ConvState.asking_food ∧
    (step failEnv (TgUpdate.text "soup") askingFoodState).1.user_data =
      askingFoodState.user_data ∧
    (step failEnv (TgUpdate.text "soup") askingFoodState).2 =
      ["Thanks! Analyzing...",
       "I had trouble estimating. Could you try describing it again?"] :=
  c7_adapter_soft_failure failEnv askingFoodState "soup" rfl rfl

/-- C8 (amended): with either credential missing, polling never starts and
a FATAL diagnostic is produced — but the process terminates with exit
status 0 (Python `exit()` raises `SystemExit(None)` and a bare `return`
from `main` falls off the script), not with a non-zero status. -/
theorem c8_missing_credential_no_start (env : ProcEnv)
    (h : env.openai_api_key = none ∨ env.telegram_bot_token = none) :
    isPolling (program_startup env) = false ∧
    exitCodeOf (program_startup env) = some 0 ∧
    diagnosticOf (program_startup env) ≠ none := by
  obtain ⟨k, t⟩ := env
  rcases h with h | h
  · dsimp only at h
    subst h
    cases t <;> simp [program_startup, isPolling, exitCodeOf, diagnosticOf]
  · dsimp only at h
    subst h
    cases k <;> simp [program_startup, isPolling, exitCodeOf, diagnosticOf]

theorem c8_missing_credential_no_start_witness :
    isPolling (program_startup
      { openai_api_key := none, telegram_bot_token := some "tok" }) = false ∧
    exitCodeOf (program_startup
      { openai_api_key := none, telegram_bot_token := some "tok" }) = some 0 ∧
    diagnosticOf (program_startup
      { openai_api_key := none, telegram_bot_token := some "tok" }) ≠ none :=
  c8_missing_credential_no_start _ (Or.inl rfl)

/-- C8 counterexample: both missing-credential paths terminate with exit
status 0, contradicting the claimed non-zero-equivalent termination. -/
theorem c8_exit_status_zero_counterexample :
    program_startup { openai_api_key := none, telegram_bot_token := some "tok" } =
      StartupOutcome.exited 0 "FATAL: OPENAI_API_KEY environment variable not set." ∧
    program_startup { openai_api_key := some "key", telegram_bot_token := none } =
      StartupOutcome.exited 0 "FATAL: TELEGRAM_BOT_TOKEN environment variable not set." :=
  ⟨rfl, rfl⟩

/-- C9: `/clear_chat` (dispatched ahead of the conversation handler from
any state) deletes only the free-form chat history; the conversation state,
the partial buffer and the record store are unchanged. -/
theorem c9_clear_chat_only_clears_history (env : Env) (st : BotState) :
    (step env (TgUpdate.command "clear_chat") st).1.user_data.chat_history = none ∧
    (step env (TgUpdate.command "clear_chat") st).1.conv = st.conv ∧
    (step env (TgUpdate.command "clear_chat") st).1.user_data.carbs = st.user_data.carbs ∧
    (step env (TgUpdate.command "clear_chat") st).1.user_data.insulin = st.user_data.insulin ∧
    (step env (TgUpdate.command "clear_chat") st).1.event_records = st.event_records := by
  have hstep : step env (TgUpdate.command "clear_chat") st = clear_chat env st := rfl
  rw [hstep]
  unfold clear_chat
  cases hch : st.user_data.chat_history with
  | some l => exact ⟨rfl, rfl, rfl, rfl, rfl⟩
  | none => exact ⟨hch, rfl, rfl, rfl, rfl⟩

/-- C10: every invocation of the `cancel` handler deletes the free-form
chat history (a no-op when absent), while the partial-capture fields
(`carbs`, `insulin`) and the record store stay exactly as they were. -/
theorem c10_cancel_deletes_history_keeps_buffer (env : Env) (st : BotState) :
    (cancel env st).1.user_data.chat_history = none ∧
    (cancel env st).1.user_data.carbs = st.user_data.carbs ∧
    (cancel env st).1.user_data.insulin = st.user_data.insulin ∧
    (cancel env st).1.event_records = st.event_records ∧
    (cancel env st).2 = ["Operation cancelled."] :=
  ⟨rfl, rfl, rfl, rfl, rfl⟩

end InsulinBot
